import Mathlib

/-!
Verification of the metadata normalization, classification, relevance-scoring and
citation-export pipeline of `Time_Series_Fetch.py` (class `TimeSeriesBookScraper`).

The Python code is shallowly embedded: strings are Lean `String` (a list of
characters, adequate for the ASCII data these claims exercise), Python floats are
modelled exactly by rationals (every weight and threshold in the source is a
multiple of 1/10, so no rounding behaviour is lost), optional values are `Option`,
and a raised-and-swallowed per-candidate exception is modelled by `Except`/`Option`
plumbing.  Helper functions named `py...` reproduce the semantics of the Python
primitives the source uses (`str.split`, `str.strip`, `str.lower`, `int(...)`,
substring containment via `in`, `str.flatten`, truthiness of strings and lists).
-/

/-- Model of Python `str.split()` whitespace (ASCII subset). -/
def pyIsSpace (c : Char) : Bool :=
  c == ' ' || c == '\t' || c == '\n' || c == '\r' || c == '\x0b' || c == '\x0c'

/-- ASCII alphabetic test, the character class `[a-zA-Z]` of the source's regexes. -/
def isAlphaChar (c : Char) : Bool :=
  ('a' ≤ c && c ≤ 'z') || ('A' ≤ c && c ≤ 'Z')

/-- ASCII digit test. -/
def isDigitChar (c : Char) : Bool := '0' ≤ c && c ≤ '9'

/-- Python regex word character `\w` (ASCII subset): letters, digits, underscore. -/
def isWordChar (c : Char) : Bool := isAlphaChar c || isDigitChar c || c == '_'

/-- Model of Python `str.lower()` on ASCII letters. -/
def pyLower (s : String) : String := ⟨s.data.map Char.toLower⟩

/-- Does the list `n` occur as a prefix of `h`? -/
def listStarts : List Char → List Char → Bool
  | [], _ => true
  | _ :: _, [] => false
  | c :: cs, d :: ds => c == d && listStarts cs ds

/-- Does the list `n` occur as a contiguous sublist of `h`?  Model of Python
`n in h` on strings. -/
def listOccurs (n : List Char) : List Char → Bool
  | [] => n.isEmpty
  | c :: t => listStarts n (c :: t) || listOccurs n t

/-- Model of Python substring containment `needle in hay`. -/
def strContains (needle hay : String) : Bool := listOccurs needle.data hay.data

/-- Model of `any(keyword in text for keyword in kws)`. -/
def containsAnyKw (kws : List String) (text : String) : Bool :=
  kws.any (fun k => strContains k text)

/-- Auxiliary scanner for Python `str.split()` with no separator: split on runs of
whitespace, discarding empty pieces. -/
def splitWsAux : List Char → List Char → List String
  | [], cur => if cur.isEmpty then [] else [⟨cur.reverse⟩]
  | c :: rest, cur =>
    if pyIsSpace c then
      (if cur.isEmpty then [] else [⟨cur.reverse⟩]) ++ splitWsAux rest []
    else
      splitWsAux rest (c :: cur)

/-- Model of Python `s.split()` (split on whitespace, no empty pieces). -/
def pySplit (s : String) : List String := splitWsAux s.data []

/-- Model of Python `s.strip()` (ASCII whitespace): drop leading and trailing
whitespace characters. -/
def pyStrip (s : String) : String :=
  ⟨((s.data.dropWhile pyIsSpace).reverse.dropWhile pyIsSpace).reverse⟩

/-- Model of Python `s.split(", ")`: split on each occurrence of the two-character
separator, keeping empty pieces. -/
def splitCommaSpace : List Char → List (List Char)
  | [] => [[]]
  | [c] => [[c]]
  | c :: d :: rest =>
    if c == ',' && d == ' ' then
      [] :: splitCommaSpace rest
    else
      match splitCommaSpace (d :: rest) with
      | [] => [[c]]
      | g :: gs => (c :: g) :: gs

/-- Model of Python `s.split("\n")`: split on each newline, keeping empty pieces. -/
def splitNl : List Char → List (List Char)
  | [] => [[]]
  | c :: rest =>
    if c == '\n' then
      [] :: splitNl rest
    else
      match splitNl rest with
      | [] => [[c]]
      | g :: gs => (c :: g) :: gs

/-- The lines of a string, split at every newline character. -/
def strLines (s : String) : List String := (splitNl s.data).map fun l => ⟨l⟩

/-- Model of Python `sep.flatten(parts)`. -/
def pyJoin (sep : String) : List String → String
  | [] => ""
  | [x] => x
  | x :: y :: xs => x ++ sep ++ pyJoin sep (y :: xs)

/-- Model of `', '.flatten(authors) if authors else 'Unknown'`, the author-string
assembly used by every parser. -/
def pyJoinAuthors (authors : List String) : String :=
  if authors.isEmpty then "Unknown" else pyJoin ", " authors

/-- Model of Python `int(s)`: optional surrounding whitespace, optional sign,
then at least one ASCII digit; `none` models the `ValueError` raise. -/
def digitsVal (ds : List Char) : Nat :=
  ds.foldl (fun a c => a * 10 + (c.toNat - 48)) 0

/-- Parse the digit-and-sign core of `int(s)`. -/
def pyIntCore : List Char → Option Int
  | [] => none
  | '-' :: ds => if ds ≠ [] && ds.all isDigitChar then some (-(digitsVal ds : Int)) else none
  | '+' :: ds => if ds ≠ [] && ds.all isDigitChar then some ((digitsVal ds : Int)) else none
  | ds => if ds.all isDigitChar then some ((digitsVal ds : Int)) else none

/-- Model of Python `int(s)` for decimal strings. -/
def pyInt (s : String) : Option Int := pyIntCore (pyStrip s).data

/-- Model of Python `s.isdigit()` (ASCII): non-empty and all digits. -/
def pyIsDigit (s : String) : Bool := !s.data.isEmpty && s.data.all isDigitChar

/-- The first `n` characters of a string, Python `s[:n]`. -/
def strTake (s : String) (n : Nat) : String := ⟨s.data.take n⟩

/-! ## Relevance scorer

The weighted-keyword statements of `Time_Series_Fetch.py` lines 514-541 (the
block following the `return` of `_generate_bibtex_key`; see the claim about
reachability for where this text sits in the source).  Every weight in the
source's table is an exact multiple of 0.1, so the table is carried as
numerator-times-ten naturals; `_calculate_relevance` converts back to the exact
rational value `min(score / 10.0, 1.0)` the source computes. -/

/-- The source's phrase-weight table, weights multiplied by ten
(`'time series': 3.0` becomes `("time series", 30)` and so on, in source order). -/
def relevanceWeights10 : List (String × Nat) :=
  [("time series", 30), ("temporal analysis", 25), ("forecasting", 20),
   ("arima", 20), ("garch", 20), ("stochastic process", 20),
   ("econometrics", 15), ("signal processing", 15), ("time domain", 15),
   ("frequency domain", 15), ("seasonal", 10), ("trend", 8),
   ("correlation", 5), ("regression", 3)]

/-- The same table with its true rational weights, for stating the specification. -/
def relevanceWeightsSpec : List (String × ℚ) :=
  relevanceWeights10.map fun p => (p.1, (p.2 : ℚ) / 10)

/-- Ten times the accumulated keyword score of
`text = f"{title} {abstract}".lower()`:
the loop `for keyword, weight in keywords.items(): if keyword in text: score += weight`. -/
def relevanceScore10 (title abstract : String) : Nat :=
  let text := pyLower (title ++ " " ++ abstract)
  relevanceWeights10.foldl (fun score kw => if strContains kw.1 text then score + kw.2 else score) 0

/-- The scorer `min(score / 10.0, 1.0)` of lines 514-541 as a total function of
title and abstract (`score` is `relevanceScore10 / 10`, hence the 100). -/
def _calculate_relevance (title abstract : String) : ℚ :=
  min ((relevanceScore10 title abstract : ℚ) / 100) 1

/-! ## Document classifiers -/

/-- The CrossRef native-type mapping table of `_classify_document_type`. -/
def crossrefTypeMapping : List (String × String) :=
  [("journal-article", "Research Article"), ("book", "Book"),
   ("book-chapter", "Book Chapter"), ("proceedings-article", "Conference Paper"),
   ("dissertation", "Dissertation"), ("report", "Technical Report")]

/-- The thesis indicator keywords of `_classify_document_type`. -/
def thesisKeywords : List String :=
  ["thesis", "dissertation", "phd", "master", "doctoral", "graduate"]

/-- The doctoral indicator keywords of `_classify_document_type`. -/
def doctoralKeywords : List String := ["phd", "doctoral", "doctor"]

/-- The book indicator keywords of `_classify_document_type`. -/
def bookKeywords : List String :=
  ["handbook", "textbook", "manual", "guide", "introduction to", "principles of"]

/-- Model of `_classify_document_type(title, abstract, source, crossref_type='')`:
thesis keywords first, then Internet Archive or book keywords, then the CrossRef
native type table (only when a type code was supplied), then the arXiv default. -/
def _classify_document_type (title abstract source crossref_type : String) : String :=
  let text := pyLower (title ++ " " ++ abstract)
  if containsAnyKw thesisKeywords text then
    if containsAnyKw doctoralKeywords text then "Dissertation" else "Thesis"
  else if source == "Internet Archive" || containsAnyKw bookKeywords text then
    "Book"
  else if crossref_type ≠ "" then
    (crossrefTypeMapping.lookup crossref_type).getD "Research Article"
  else if source == "arXiv" then
    "Preprint"
  else
    "Research Article"

/-- Model of `_classify_thesis_type(title, abstract, degree_type)`: note that the
source inspects `f"{title} {abstract} {degree_type}".lower()`, the concatenation
of all three parameters, not the degree string alone. -/
def _classify_thesis_type (title abstract degree_type : String) : String :=
  let text := pyLower (title ++ " " ++ abstract ++ " " ++ degree_type)
  if containsAnyKw ["phd", "doctoral", "doctor", "ph.d"] text then "Dissertation"
  else if containsAnyKw ["master", "ms", "m.s", "ma", "m.a"] text then "Thesis"
  else if containsAnyKw ["bachelor", "bs", "b.s", "ba", "b.a"] text then "Undergraduate Thesis"
  else "Thesis"

/-! ## Citation key generator -/

/-- Model of `re.sub(r'[^a-zA-Z]', '', s)`: keep only ASCII letters. -/
def stripNonAlpha (s : String) : String := ⟨s.data.filter isAlphaChar⟩

/-- Scanner for `re.findall(r'\b[a-zA-Z]{3,}\b', title)`: emit each maximal
alphabetic run of length at least three whose neighbours (when present) are not
word characters.  `leftOk` records whether the currently accumulated run (held
reversed in `run`) started at a word boundary. -/
def wordScanAux : List Char → Bool → List Char → List (List Char)
  | [], leftOk, run =>
    if 3 ≤ run.length && leftOk then [run.reverse] else []
  | c :: rest, leftOk, run =>
    if isAlphaChar c then
      wordScanAux rest leftOk (c :: run)
    else
      (if 3 ≤ run.length && leftOk && !(isWordChar c) then [run.reverse] else [])
        ++ wordScanAux rest (!(isWordChar c)) []

/-- The matches of `re.findall(r'\b[a-zA-Z]{3,}\b', title)`, in order. -/
def pyFindWords (title : String) : List String :=
  (wordScanAux title.data true []).map fun l => ⟨l⟩

/-- Model of `str(year) if year else "Unknown"`: Python truthiness makes both
`None` and `0` fall to `"Unknown"`. -/
def pyYearStr : Option Int → String
  | some y => if y == 0 then "Unknown" else toString y
  | none => "Unknown"

/-- Model of `_generate_bibtex_key(first_author, year, title)`, lines 500-513:
the statements up to and including the `return` (the statements after it never
execute; see the reachability claim). -/
def _generate_bibtex_key (first_author : String) (year : Option Int) (title : String) : String :=
  let author_parts := pySplit first_author
  let author_surname := match author_parts.getLast? with
    | some t => t
    | none => "Unknown"
  let author_surname := stripNonAlpha author_surname
  let title_words := pyFindWords title
  let title_word := match title_words.head? with
    | some w => w
    | none => "Title"
  let year_str := pyYearStr year
  author_surname ++ year_str ++ title_word

/-! ## Statement-level model of `_generate_bibtex_key`

Lines 500-541 of the source are a single method body: six assignments, a
`return`, and then (textually inside the same body) the stray relevance-scoring
block.  To reason about reachability, the body is modelled as a list of
statements run by `runBody`, which stops at the first `return` (or raise). -/

/-- One Python statement, relative to a local-variable state `σ` and a return
type `ρ`: an assignment, a `return`, or a statement whose execution raises. -/
inductive MStep (σ ρ : Type) where
  | assign : (σ → σ) → MStep σ ρ
  | ret : (σ → ρ) → MStep σ ρ
  | raiseErr : MStep σ ρ

/-- Result of running a statement list: a returned value together with the
number of statements executed, an exception after some executed statements, or
falling off the end of the body. -/
inductive RunResult (ρ : Type) where
  | returned : ρ → Nat → RunResult ρ
  | raised : Nat → RunResult ρ
  | fellOff : RunResult ρ
deriving DecidableEq

/-- Run a statement list from a state: Python control flow, where `return`
stops execution immediately and later statements are never reached. -/
def runBody {σ ρ : Type} : List (MStep σ ρ) → σ → RunResult ρ
  | [], _ => .fellOff
  | .assign f :: rest, s =>
    match runBody rest (f s) with
    | .returned v n => .returned v (n + 1)
    | .raised n => .raised (n + 1)
    | .fellOff => .fellOff
  | .ret g :: _, s => .returned (g s) 1
  | .raiseErr :: _, _ => .raised 1

/-- The local variables of `_generate_bibtex_key` (parameters and assigned
names, with the defaults Python would show before first assignment elided as
empty values). -/
structure GenKeyState where
  first_author : String
  year : Option Int
  title : String
  author_parts : List String := []
  author_surname : String := ""
  title_words : List String := []
  title_word : String := ""
  year_str : String := ""

/-- Entry state of a `_generate_bibtex_key` call. -/
def GenKeyState.init (a : String) (y : Option Int) (t : String) : GenKeyState :=
  { first_author := a, year := y, title := t }

/-- The executable front of the `_generate_bibtex_key` body, lines 503-513:
six assignments and the `return` statement.  The statements of lines 514-541
sit after this `return` inside the same body. -/
def genKeyFront : List (MStep GenKeyState String) :=
  [.assign (fun s => { s with author_parts := pySplit s.first_author }),
   .assign (fun s => { s with author_surname := match s.author_parts.getLast? with
                               | some t => t
                               | none => "Unknown" }),
   .assign (fun s => { s with author_surname := stripNonAlpha s.author_surname }),
   .assign (fun s => { s with title_words := pyFindWords s.title }),
   .assign (fun s => { s with title_word := match s.title_words.head? with
                               | some w => w
                               | none => "Title" }),
   .assign (fun s => { s with year_str := pyYearStr s.year }),
   .ret (fun s => s.author_surname ++ s.year_str ++ s.title_word)]

/-! ## The class attribute dictionary

The methods defined (by a `def` statement) on class `TimeSeriesBookScraper`,
transcribed from the source.  Python resolves `self.name` against this
dictionary; a miss raises `AttributeError`. -/

/-- The method names the class defines, in source order. -/
def classMethodNames : List String :=
  ["__init__", "init_database", "search_arxiv", "_parse_arxiv_response",
   "search_crossref", "_parse_crossref_response", "search_internet_archive",
   "_parse_internet_archive_response", "search_ndltd", "_parse_ndltd_response",
   "_classify_document_type", "_classify_thesis_type", "_generate_bibtex_key",
   "save_to_database", "search_database", "export_to_bibtex",
   "export_to_endnote", "export_to_zotero_csv"]

/-- Attribute lookup on a `TimeSeriesBookScraper` instance. -/
def scraperHasAttr (name : String) : Bool := classMethodNames.contains name

/-- The Python exceptions this model distinguishes. -/
inductive PyErr where
  | attributeError
  | valueError
  | indexError
deriving DecidableEq

/-! ## The record dictionary

The per-candidate dictionary each parser builds and appends to its result list
(the fields the source stores; parsers that do not set a field leave the
default the storage layer would supply). -/

/-- A candidate record as assembled by the parsers. -/
structure Book where
  title : String
  authors : String
  year : Option Int
  source : String
  url : String
  doi : String := ""
  abstract : String
  pdf_url : Option String := none
  license_type : String
  relevance_score : ℚ
  document_type : String
  journal : String := ""
  publisher : String := ""
  pages : String := ""
  volume : String := ""
  issue : String := ""
  bibtex_key : String

/-! ## arXiv parser -/

/-- One `atom:link` element of an arXiv feed entry. -/
structure ArxivLink where
  linkType : String
  href : String

/-- One `atom:entry` of an arXiv feed, with each optional child element as an
`Option` over its text. -/
structure ArxivEntry where
  titleText : Option String := none
  authorNames : List String := []
  summaryText : Option String := none
  publishedText : Option String := none
  links : List ArxivLink := []
  idText : Option String := none

/-- The per-entry body of `_parse_arxiv_response` with the call
`self._calculate_relevance(title, abstract)` resolved to the scoring statements
of lines 514-541 (the behaviour the call denotes; the reachability claim
records that at run time the lookup in fact fails). -/
def processArxivEntry (e : ArxivEntry) : Option Book :=
  let title := match e.titleText with
    | some t => pyStrip t
    | none => "No title"
  let authors := e.authorNames
  let abstract := match e.summaryText with
    | some s => pyStrip s
    | none => ""
  let year : Option Int := match e.publishedText with
    | some p => pyInt (strTake p 4)
    | none => none
  let pdf_link : Option String :=
    ((e.links.filter fun l => l.linkType == "application/pdf").head?).map ArxivLink.href
  let url := match e.idText with
    | some i => i
    | none => ""
  let relevance := _calculate_relevance title abstract
  if title ≠ "" ∧ title ≠ "No title" ∧ relevance > 1/10 then
    some { title := title,
           authors := pyJoinAuthors authors,
           year := year,
           source := "arXiv",
           url := url,
           abstract := abstract,
           pdf_url := pdf_link,
           license_type := "Open Access",
           relevance_score := relevance,
           document_type := _classify_document_type title abstract "arXiv" "",
           bibtex_key := _generate_bibtex_key (authors.headD "Unknown") year title }
  else
    none

/-- The arXiv parse loop with the relevance call resolved. -/
def parseArxivEntries (entries : List ArxivEntry) : List Book :=
  entries.filterMap processArxivEntry

/-- The per-entry body under Python's actual attribute resolution: the lookup
of `_calculate_relevance` is performed against the class dictionary before the
(pure and total) rest of the body can produce a record. -/
def processArxivEntryActual (e : ArxivEntry) : Except PyErr (Option Book) :=
  if scraperHasAttr "_calculate_relevance" then
    .ok (processArxivEntry e)
  else
    .error .attributeError

/-- `_parse_arxiv_response` as executed: each entry body runs inside
`try/except`, an exception skips the entry. -/
def _parse_arxiv_response (entries : List ArxivEntry) : List Book :=
  entries.filterMap fun e =>
    match processArxivEntryActual e with
    | .ok r => r
    | .error _ => none

/-! ## CrossRef parser -/

/-- One CrossRef `author` object. -/
structure CRAuthor where
  given : String := ""
  family : String := ""

/-- A CrossRef date object: `none` in `dateParts` models a missing
`date-parts` key (the source then defaults to `[[]]`). -/
structure CRDate where
  dateParts : Option (List (List Int)) := none

/-- One CrossRef work item, with the fields the source reads; string fields
default to the empty string the source's `.get(..., '')` would produce. -/
structure CRItem where
  title : List String := []
  author : List CRAuthor := []
  publishedPrint : Option CRDate := none
  publishedOnline : Option CRDate := none
  abstract : String := ""
  doi : String := ""
  containerTitle : List String := []
  publisher : String := ""
  page : String := ""
  volume : String := ""
  issue : String := ""
  license : List String := []
  nativeType : String := ""

/-- Title extraction of `_parse_crossref_response`:
`titles[0] if titles else "No title"`, then whitespace collapsing
`' '.flatten(title.split()) if title else "No title"`. -/
def crTitle (item : CRItem) : String :=
  let t0 := match item.title.head? with
    | some t => t
    | none => "No title"
  if t0 ≠ "" then pyJoin " " (pySplit t0) else "No title"

/-- Author extraction: keep authors with a family name,
as `f"{given} {family}".strip()`. -/
def crAuthors (item : CRItem) : List String :=
  item.author.filterMap fun a =>
    if a.family ≠ "" then some (pyStrip (a.given ++ " " ++ a.family)) else none

/-- Date-parts extraction: `published-print` first, else `published-online`;
`item['published-...'].get('date-parts', [[]])[0]` raises `IndexError` when the
key is present but its list is empty. -/
def crDateParts (item : CRItem) : Except PyErr (Option (List Int)) :=
  match item.publishedPrint with
  | some d =>
    match d.dateParts with
    | some l =>
      match l.head? with
      | some p => .ok (some p)
      | none => .error .indexError
    | none => .ok (some [])
  | none =>
    match item.publishedOnline with
    | some d =>
      match d.dateParts with
      | some l =>
        match l.head? with
        | some p => .ok (some p)
        | none => .error .indexError
      | none => .ok (some [])
    | none => .ok none

/-- `if date_parts and len(date_parts) > 0: year = int(date_parts[0])`. -/
def crYearOf : Option (List Int) → Option Int
  | some (x :: _) => some x
  | some [] => none
  | none => none

/-- The per-item body of `_parse_crossref_response` with the relevance call
resolved to the scoring statements of lines 514-541; `none` is a skipped item
(either a swallowed per-item exception or an acceptance-gate rejection). -/
def processCrossrefItem (item : CRItem) : Option Book :=
  let title := crTitle item
  let authors := crAuthors item
  match crDateParts item with
  | .error _ => none
  | .ok dp =>
    let year := crYearOf dp
    let abstract := item.abstract
    let doi := item.doi
    let url := if doi ≠ "" then "https://doi.org/" ++ doi else ""
    let journal := match item.containerTitle.head? with
      | some j => j
      | none => ""
    let has_license := item.license.length > 0
    let relevance := _calculate_relevance title abstract
    if has_license ∧ relevance > 1/10 ∧ title ≠ "No title" then
      some { title := title,
             authors := pyJoinAuthors authors,
             year := year,
             source := "CrossRef",
             url := url,
             doi := doi,
             abstract := abstract,
             license_type := if item.license ≠ [] then "Open Access" else "Licensed",
             relevance_score := relevance,
             document_type := _classify_document_type title abstract "CrossRef" item.nativeType,
             journal := journal,
             publisher := item.publisher,
             pages := item.page,
             volume := item.volume,
             issue := item.issue,
             bibtex_key := _generate_bibtex_key (authors.headD "Unknown") year title }
    else
      none

/-- The CrossRef parse loop with the relevance call resolved. -/
def parseCrossrefItems (items : List CRItem) : List Book :=
  items.filterMap processCrossrefItem

/-- The per-item body under Python's actual attribute resolution. -/
def processCrossrefItemActual (item : CRItem) : Except PyErr (Option Book) :=
  if scraperHasAttr "_calculate_relevance" then
    .ok (processCrossrefItem item)
  else
    .error .attributeError

/-- `_parse_crossref_response` as executed: per-item `try/except` skips the
item on any exception. -/
def _parse_crossref_response (items : List CRItem) : List Book :=
  items.filterMap fun item =>
    match processCrossrefItemActual item with
    | .ok r => r
    | .error _ => none

/-! ## Internet Archive parser -/

/-- An Internet Archive field that may arrive as a string or as a list of
strings. -/
inductive IAStrOrList where
  | s : String → IAStrOrList
  | l : List String → IAStrOrList

/-- The `year` field of an Internet Archive document: absent, an integer, a
string, or a list of strings. -/
inductive IAYearVal where
  | noneV : IAYearVal
  | intV : Int → IAYearVal
  | strV : String → IAYearVal
  | listV : List String → IAYearVal

/-- One Internet Archive search document, with the source's `.get` defaults. -/
structure IADoc where
  title : String := ""
  creator : IAStrOrList := .l []
  year : IAYearVal := .noneV
  identifier : String := ""
  description : IAStrOrList := .s ""

/-- `authors = doc.get('creator', []); if isinstance(authors, str): authors = [authors]`. -/
def iaCreators : IAStrOrList → List String
  | .s v => [v]
  | .l v => v

/-- `description` normalization: `' '.flatten(description)` when it is a list. -/
def iaDescription : IAStrOrList → String
  | .s v => v
  | .l v => pyJoin " " v

/-- Year normalization of `_parse_internet_archive_response`: a non-empty list
is converted with `int(year[0])` (a parse failure raises and skips the
document), a string with `int(year) if year.isdigit() else None`.  Python
leaves an empty list value in place; that value never reaches an `Int`-typed
field of a stored record in a way any claim observes, and is modelled as no
year. -/
def iaYearOf : IAYearVal → Except PyErr (Option Int)
  | .noneV => .ok none
  | .intV n => .ok (some n)
  | .strV s => .ok (if pyIsDigit s then pyInt s else none)
  | .listV [] => .ok none
  | .listV (x :: _) =>
    match pyInt x with
    | some n => .ok (some n)
    | none => .error .valueError

/-- The per-document body of `_parse_internet_archive_response` with the
relevance call resolved to the scoring statements of lines 514-541.  Note the
acceptance gate tests only `relevance > 0.3`: there is no condition on the
title. -/
def processIADoc (doc : IADoc) : Option Book :=
  let title := doc.title
  let authors := iaCreators doc.creator
  match iaYearOf doc.year with
  | .error _ => none
  | .ok year =>
    let identifier := doc.identifier
    let url := "https://archive.org/details/" ++ identifier
    let description := iaDescription doc.description
    let relevance := _calculate_relevance title description
    let doc_type := _classify_document_type title description "Internet Archive" ""
    if relevance > 3/10 then
      some { title := title,
             authors := pyJoinAuthors authors,
             year := year,
             source := "Internet Archive",
             url := url,
             abstract := description,
             pdf_url := some ("https://archive.org/download/" ++ identifier ++ "/" ++ identifier ++ ".pdf"),
             license_type := "Public Domain",
             relevance_score := relevance,
             document_type := doc_type,
             bibtex_key := _generate_bibtex_key (authors.headD "Unknown") year title }
    else
      none

/-- The Internet Archive parse loop with the relevance call resolved. -/
def parseIADocs (docs : List IADoc) : List Book :=
  docs.filterMap processIADoc

/-- The per-document body under Python's actual attribute resolution. -/
def processIADocActual (doc : IADoc) : Except PyErr (Option Book) :=
  if scraperHasAttr "_calculate_relevance" then
    .ok (processIADoc doc)
  else
    .error .attributeError

/-- `_parse_internet_archive_response` as executed: per-document `try/except`
skips the document on any exception. -/
def _parse_internet_archive_response (docs : List IADoc) : List Book :=
  docs.filterMap fun doc =>
    match processIADocActual doc with
    | .ok r => r
    | .error _ => none

/-! ## Export engine

The exporters consume rows of the stored result table.  A stored string column
holds the empty string when the record had nothing for it (the save path
supplies `''` defaults), so Python truthiness on a field is the `≠ ""` test;
the nullable `year` column is an `Option Int` and `pd.notna` is `isSome`. -/

/-- One row of the result table as the exporters read it. -/
structure Row where
  title : String := ""
  authors : String := ""
  year : Option Int := none
  url : String := ""
  doi : String := ""
  abstract : String := ""
  journal : String := ""
  publisher : String := ""
  pages : String := ""
  volume : String := ""
  issue : String := ""
  isbn : String := ""
  date_added : String := ""
  document_type : String := ""

/-- The RIS type code of `export_to_endnote`. -/
def risTypeCode (doc_type : String) : String :=
  if strContains "book" doc_type then "BOOK"
  else if strContains "thesis" doc_type then "THES"
  else if strContains "dissertation" doc_type then "THES"
  else if strContains "conference" doc_type then "CONF"
  else "JOUR"

/-- The full element list one row contributes in `export_to_endnote`, before
`filter(None, entry)`: the unconditional `TY`/`TI`/`UR`/`AB` elements, the `PY`
element that is the empty string when the year is absent, one `AU` element per
author (the stored author string split on `", "`), the conditional
`JO`/`PB`/`VL`/`IS`/`SP`/`DO` elements, the `ER` terminator and a final empty
element. -/
def risEntryAll (r : Row) : List String :=
  ["TY  - " ++ risTypeCode (pyLower r.document_type),
   "TI  - " ++ r.title,
   (match r.year with
    | some y => "PY  - " ++ toString y
    | none => ""),
   "UR  - " ++ r.url,
   "AB  - " ++ r.abstract]
  ++ (if r.authors ≠ "" then
        ((splitCommaSpace r.authors.data).map fun a => "AU  - " ++ (⟨a⟩ : String))
      else [])
  ++ (if r.journal ≠ "" then ["JO  - " ++ r.journal] else [])
  ++ (if r.publisher ≠ "" then ["PB  - " ++ r.publisher] else [])
  ++ (if r.volume ≠ "" then ["VL  - " ++ r.volume] else [])
  ++ (if r.issue ≠ "" then ["IS  - " ++ r.issue] else [])
  ++ (if r.pages ≠ "" then ["SP  - " ++ r.pages] else [])
  ++ (if r.doi ≠ "" then ["DO  - " ++ r.doi] else [])
  ++ ["ER  - ", ""]

/-- The lines of one RIS entry: `'\n'.flatten(filter(None, entry))` filters every
empty element (including the intended trailing blank) before joining. -/
def risLines (r : Row) : List String := (risEntryAll r).filter (fun s => s ≠ "")

/-- `export_to_endnote`: each entry's surviving elements joined by newlines,
and the entry strings themselves joined by a single newline. -/
def export_to_endnote (rows : List Row) : String :=
  pyJoin "\n" (rows.map fun r => pyJoin "\n" (risLines r))

/-- The Zotero item-type table of `export_to_zotero_csv`. -/
def zoteroTypeMapping : List (String × String) :=
  [("Research Article", "journalArticle"), ("Book", "book"),
   ("Book Chapter", "bookSection"), ("Conference Paper", "conferencePaper"),
   ("Thesis", "thesis"), ("Dissertation", "thesis"),
   ("Preprint", "preprint"), ("Technical Report", "report")]

/-- One output row of the Zotero CSV (the CSV serialization itself is done by
the pandas collaborator and carries these values column for column). -/
structure ZoteroEntry where
  itemType : String
  zTitle : String
  zAuthor : String
  zYear : String
  zUrl : String
  zAbstract : String
  zDoi : String
  publicationTitle : String
  zPublisher : String
  zVolume : String
  zIssue : String
  zPages : String
  zIsbn : String
  dateAdded : String
  manualTags : String

/-- The per-row dictionary of `export_to_zotero_csv`, with
`type_mapping.get(doc_type, 'journalArticle')` for the item type. -/
def zoteroRow (r : Row) : ZoteroEntry :=
  { itemType := (zoteroTypeMapping.lookup r.document_type).getD "journalArticle",
    zTitle := r.title,
    zAuthor := r.authors,
    zYear := match r.year with
      | some y => toString y
      | none => "",
    zUrl := r.url,
    zAbstract := r.abstract,
    zDoi := r.doi,
    publicationTitle := r.journal,
    zPublisher := r.publisher,
    zVolume := r.volume,
    zIssue := r.issue,
    zPages := r.pages,
    zIsbn := r.isbn,
    dateAdded := r.date_added,
    manualTags := "time series; quantitative analysis" }

/-- `export_to_zotero_csv` at row level: one Zotero row per input row, in
order. -/
def export_to_zotero_csv (rows : List Row) : List ZoteroEntry :=
  rows.map zoteroRow

/-! ## Helper lemmas -/

theorem data_append (s t : String) : (s ++ t).data = s.data ++ t.data := rfl

theorem listStarts_append {n h : List Char} (t : List Char) (hs : listStarts n h = true) :
    listStarts n (h ++ t) = true := by
  induction n generalizing h with
  | nil => simp [listStarts]
  | cons c cs ih =>
    cases h with
    | nil => simp [listStarts] at hs
    | cons d ds =>
      simp only [listStarts, Bool.and_eq_true] at hs ⊢
      exact ⟨hs.1, ih hs.2⟩

theorem listOccurs_append {n h : List Char} (t : List Char) (ho : listOccurs n h = true) :
    listOccurs n (h ++ t) = true := by
  induction h with
  | nil =>
    simp only [listOccurs, List.isEmpty_iff] at ho
    subst ho
    cases t with
    | nil => simp [listOccurs]
    | cons c cs => simp [listOccurs, listStarts]
  | cons c cs ih =>
    simp only [listOccurs, Bool.or_eq_true] at ho ⊢
    rcases ho with hs | ho
    · exact Or.inl (listStarts_append t hs)
    · exact Or.inr (ih ho)

theorem strContains_append_left {n s : String} (t : String)
    (h : strContains n s = true) : strContains n (s ++ t) = true := by
  simpa [strContains, data_append] using listOccurs_append t.data h

theorem pyLower_append (s t : String) : pyLower (s ++ t) = pyLower s ++ pyLower t :=
  congrArg String.mk (by rw [show (s ++ t).data = s.data ++ t.data from rfl, List.map_append])

/-- The accumulation loop of the scorer is the sum of the weights of the
phrases present. -/
theorem foldl_weights (l : List (String × Nat)) (text : String) (init : Nat) :
    l.foldl (fun score kw => if strContains kw.1 text then score + kw.2 else score) init
      = init + ((l.filter fun kw => strContains kw.1 text).map Prod.snd).sum := by
  induction l generalizing init with
  | nil => simp
  | cons kw rest ih =>
    by_cases h : strContains kw.1 text = true <;>
      simp [List.foldl_cons, h, ih, List.filter_cons, Nat.add_assoc]

theorem sum_map_cast_div10 (l : List Nat) :
    ((l.map fun n : Nat => (n : ℚ) / 10).sum) = ((l.sum : ℚ)) / 10 := by
  induction l with
  | nil => simp
  | cons x xs ih =>
    rw [List.map_cons, List.sum_cons, ih, List.sum_cons]
    push_cast
    ring

theorem relevance_as_score10 (t a : String) :
    _calculate_relevance t a = min ((relevanceScore10 t a : ℚ) / 100) 1 := rfl

/-- Comparison against a percent threshold reduces to the scaled natural
score. -/
theorem relevance_gt_iff (t a : String) (k : Nat) (hk : k < 100) :
    _calculate_relevance t a > (k : ℚ) / 100 ↔ relevanceScore10 t a > k := by
  unfold _calculate_relevance
  rw [gt_iff_lt, lt_min_iff]
  constructor
  · rintro ⟨h1, -⟩
    have h2 : (k : ℚ) < (relevanceScore10 t a : ℚ) := by linarith
    exact_mod_cast h2
  · intro h
    have hq : (k : ℚ) < (relevanceScore10 t a : ℚ) := by exact_mod_cast h
    have hk' : (k : ℚ) < 100 := by exact_mod_cast hk
    exact ⟨by linarith, by linarith⟩

theorem relevance_gt_tenth (t a : String) :
    _calculate_relevance t a > 1/10 ↔ relevanceScore10 t a > 10 := by
  rw [show (1 : ℚ)/10 = (10 : Nat)/100 by norm_num]
  exact relevance_gt_iff t a 10 (by norm_num)

theorem relevance_gt_threeTenths (t a : String) :
    _calculate_relevance t a > 3/10 ↔ relevanceScore10 t a > 30 := by
  rw [show (3 : ℚ)/10 = (30 : Nat)/100 by norm_num]
  exact relevance_gt_iff t a 30 (by norm_num)

theorem relevance_nonneg (t a : String) : 0 ≤ _calculate_relevance t a := by
  unfold _calculate_relevance
  exact le_min (by positivity) (by norm_num)

theorem relevance_le_one (t a : String) : _calculate_relevance t a ≤ 1 :=
  min_le_right _ _

/-- Membership in a conditional chunk of a list expression. -/
theorem memOfIte {α : Type} {x : α} {c : Prop} [Decidable c] {l : List α}
    (h : x ∈ if c then l else []) : x ∈ l := by
  by_cases hc : c
  · simpa [hc] using h
  · simp [hc] at h

theorem mem_ite_nil {α : Type} {x : α} {c : Prop} [Decidable c] {l : List α} :
    (x ∈ if c then l else []) ↔ c ∧ x ∈ l := by
  by_cases hc : c <;> simp [hc]

/-- The first two characters of a tag-prefixed string are the tag's. -/
theorem take2_tag (t v : String) (c d : Char) (rest : List Char)
    (ht : t.data = c :: d :: rest) : (t ++ v).data.take 2 = [c, d] := by
  have h : (t ++ v).data = c :: d :: (rest ++ v.data) := by
    rw [data_append, ht]; rfl
  rw [h]; rfl

/-- A tag-prefixed string is not empty. -/
theorem tag_ne_empty (t v : String) (c : Char) (rest : List Char)
    (ht : t.data = c :: rest) : t ++ v ≠ "" := by
  intro h
  have hd := congrArg String.data h
  rw [data_append, ht] at hd
  simp at hd

theorem pyJoin_append (sep : String) (a b : List String) (ha : a ≠ []) (hb : b ≠ []) :
    pyJoin sep (a ++ b) = pyJoin sep a ++ sep ++ pyJoin sep b := by
  induction a with
  | nil => exact absurd rfl ha
  | cons x xs ih =>
    cases xs with
    | nil =>
      cases b with
      | nil => exact absurd rfl hb
      | cons y ys => simp [pyJoin]
    | cons x2 xs2 =>
      have h2 : pyJoin sep ((x2 :: xs2) ++ b) =
          pyJoin sep (x2 :: xs2) ++ sep ++ pyJoin sep b := ih (by simp)
      show pyJoin sep (x :: ((x2 :: xs2) ++ b)) = _
      cases hb' : (x2 :: xs2) ++ b with
      | nil => simp at hb'
      | cons z zs =>
        simp only [pyJoin, ← hb', h2]
        cases b with
        | nil => exact absurd rfl hb
        | cons y ys => simp [pyJoin, String.append_assoc]

/-- Joining per-group joins equals joining the flattened groups, when every
group is non-empty. -/
theorem pyJoin_groups (sep : String) (groups : List (List String))
    (h : ∀ g ∈ groups, g ≠ []) :
    pyJoin sep (groups.map (pyJoin sep)) = pyJoin sep groups.flatten := by
  induction groups with
  | nil => rfl
  | cons g gs ih =>
    cases gs with
    | nil => simp [pyJoin, List.flatten]
    | cons g2 gs2 =>
      have hg : g ≠ [] := h g (by simp)
      have hrest : ∀ x ∈ g2 :: gs2, x ≠ [] := fun x hx => h x (by simp [hx])
      have hjoin_ne : (g2 :: gs2).flatten ≠ [] := by
        have hg2 : g2 ≠ [] := hrest g2 (by simp)
        cases g2 with
        | nil => exact absurd rfl hg2
        | cons w ws => simp [List.flatten]
      calc pyJoin sep ((g :: g2 :: gs2).map (pyJoin sep))
          = pyJoin sep g ++ sep ++ pyJoin sep ((g2 :: gs2).map (pyJoin sep)) := by
            simp [pyJoin]
        _ = pyJoin sep g ++ sep ++ pyJoin sep (g2 :: gs2).flatten := by rw [ih hrest]
        _ = pyJoin sep (g ++ (g2 :: gs2).flatten) := by
            rw [pyJoin_append sep g _ hg hjoin_ne]
        _ = pyJoin sep ((g :: g2 :: gs2).flatten) := by simp [List.flatten]

/-- The `PY` slot is the only element of a RIS entry whose first two characters
are `PY`: every other element carries a different two-letter tag (or is empty). -/
theorem py_slot_unique (r : Row) (x : String) (hx : x ∈ risEntryAll r)
    (h2 : x.data.take 2 = ['P', 'Y']) :
    x = (match r.year with
         | some y => "PY  - " ++ toString y
         | none => "") := by
  simp only [risEntryAll, List.append_assoc, List.mem_append, List.mem_cons,
    List.mem_singleton, List.mem_map, mem_ite_nil, List.not_mem_nil, or_false] at hx
  rcases hx with (h | h | h | h | h) | ⟨-, a, -, h⟩ | ⟨-, h⟩ | ⟨-, h⟩ | ⟨-, h⟩ | ⟨-, h⟩ | ⟨-, h⟩ | ⟨-, h⟩ | (h | h)
  · rw [h, take2_tag _ _ 'T' 'Y' _ rfl] at h2; exact absurd h2 (by decide)
  · rw [h, take2_tag _ _ 'T' 'I' _ rfl] at h2; exact absurd h2 (by decide)
  · exact h
  · rw [h, take2_tag _ _ 'U' 'R' _ rfl] at h2; exact absurd h2 (by decide)
  · rw [h, take2_tag _ _ 'A' 'B' _ rfl] at h2; exact absurd h2 (by decide)
  · rw [← h, take2_tag _ _ 'A' 'U' _ rfl] at h2; exact absurd h2 (by decide)
  · rw [h, take2_tag _ _ 'J' 'O' _ rfl] at h2; exact absurd h2 (by decide)
  · rw [h, take2_tag _ _ 'P' 'B' _ rfl] at h2; exact absurd h2 (by decide)
  · rw [h, take2_tag _ _ 'V' 'L' _ rfl] at h2; exact absurd h2 (by decide)
  · rw [h, take2_tag _ _ 'I' 'S' _ rfl] at h2; exact absurd h2 (by decide)
  · rw [h, take2_tag _ _ 'S' 'P' _ rfl] at h2; exact absurd h2 (by decide)
  · rw [h, take2_tag _ _ 'D' 'O' _ rfl] at h2; exact absurd h2 (by decide)
  · rw [h] at h2; exact absurd h2 (by decide)
  · rw [h] at h2; exact absurd h2 (by decide)

/-- A RIS entry's surviving element list ends with the `ER` terminator. -/
theorem risLines_getLast (r : Row) : (risLines r).getLast? = some "ER  - " := by
  have hsplit : risEntryAll r =
      (["TY  - " ++ risTypeCode (pyLower r.document_type),
        "TI  - " ++ r.title,
        (match r.year with
         | some y => "PY  - " ++ toString y
         | none => ""),
        "UR  - " ++ r.url,
        "AB  - " ++ r.abstract]
       ++ (if r.authors ≠ "" then
             ((splitCommaSpace r.authors.data).map fun a => "AU  - " ++ (⟨a⟩ : String))
           else [])
       ++ (if r.journal ≠ "" then ["JO  - " ++ r.journal] else [])
       ++ (if r.publisher ≠ "" then ["PB  - " ++ r.publisher] else [])
       ++ (if r.volume ≠ "" then ["VL  - " ++ r.volume] else [])
       ++ (if r.issue ≠ "" then ["IS  - " ++ r.issue] else [])
       ++ (if r.pages ≠ "" then ["SP  - " ++ r.pages] else [])
       ++ (if r.doi ≠ "" then ["DO  - " ++ r.doi] else [])) ++ ["ER  - ", ""] := by
    simp [risEntryAll]
  rw [risLines, hsplit, List.filter_append]
  have h2 : List.filter (fun s => s ≠ "") ["ER  - ", ""] = ["ER  - "] := by decide
  rw [h2]
  exact List.getLast?_concat _

/-- A RIS entry's surviving element list is never empty. -/
theorem risLines_ne_nil (r : Row) : risLines r ≠ [] := by
  intro h
  have := risLines_getLast r
  rw [h] at this
  exact absurd this (by decide)

/-- The scaled score is the sum of the scaled weights of the occurring phrases. -/
theorem relevanceScore10_eq_sum (t a : String) :
    relevanceScore10 t a =
      ((relevanceWeights10.filter fun kw =>
          strContains kw.1 (pyLower (t ++ " " ++ a))).map Prod.snd).sum := by
  unfold relevanceScore10
  rw [foldl_weights]
  omega

/-- The specification-side weighted sum is the scaled score over ten. -/
theorem spec_sum_eq (t a : String) :
    ((relevanceWeightsSpec.filter fun kw =>
        strContains kw.1 (pyLower (t ++ " " ++ a))).map Prod.snd).sum
      = (relevanceScore10 t a : ℚ) / 10 := by
  rw [relevanceScore10_eq_sum, relevanceWeightsSpec, List.filter_map, List.map_map]
  have hmap : (Prod.snd ∘ fun p : String × Nat => ((p.1, (p.2 : ℚ) / 10) : String × ℚ))
      = (fun n : Nat => (n : ℚ) / 10) ∘ Prod.snd := rfl
  rw [hmap, ← List.map_map, sum_map_cast_div10]
  rfl

/-! ## Claims -/

/-- Claim C1: for every title and abstract the relevance score equals
`min(S / 10.0, 1.0)` where `S` sums the fixed table weights of the fourteen
phrases occurring as substrings of the lowercased `title ++ " " ++ abstract`,
each phrase counted at most once; consequently the score lies in `[0, 1]`, any
text containing "time series" scores at least `0.3`, and empty title and
abstract score exactly `0`. -/
theorem claim_C1_relevance_formula :
    relevanceWeightsSpec =
      [("time series", 3), ("temporal analysis", 5/2), ("forecasting", 2), ("arima", 2),
       ("garch", 2), ("stochastic process", 2), ("econometrics", 3/2),
       ("signal processing", 3/2), ("time domain", 3/2), ("frequency domain", 3/2),
       ("seasonal", 1), ("trend", 4/5), ("correlation", 1/2), ("regression", 3/10)]
    ∧ (∀ title abstract : String,
        _calculate_relevance title abstract =
          min ((((relevanceWeightsSpec.filter fun kw =>
                    strContains kw.1 (pyLower (title ++ " " ++ abstract))).map Prod.snd).sum) / 10) 1
        ∧ 0 ≤ _calculate_relevance title abstract
        ∧ _calculate_relevance title abstract ≤ 1
        ∧ (strContains "time series" (pyLower (title ++ " " ++ abstract)) = true →
            3/10 ≤ _calculate_relevance title abstract))
    ∧ _calculate_relevance "" "" = 0 := by
  refine ⟨?_, fun title abstract => ⟨?_, relevance_nonneg _ _, relevance_le_one _ _, ?_⟩, ?_⟩
  · norm_num [relevanceWeightsSpec, relevanceWeights10]
  · rw [spec_sum_eq, relevance_as_score10, div_div]
    norm_num
  · intro hts
    have hmem : (30 : Nat) ∈ ((relevanceWeights10.filter fun kw =>
        strContains kw.1 (pyLower (title ++ " " ++ abstract))).map Prod.snd) := by
      refine List.mem_map.mpr ⟨("time series", 30), List.mem_filter.mpr ⟨by decide, hts⟩, rfl⟩
    have hsum : (30 : Nat) ≤ relevanceScore10 title abstract := by
      rw [relevanceScore10_eq_sum]
      exact List.single_le_sum (fun x _ => Nat.zero_le x) 30 hmem
    rw [relevance_as_score10]
    refine le_min ?_ (by norm_num)
    have hq : (30 : ℚ) ≤ (relevanceScore10 title abstract : ℚ) := by exact_mod_cast hsum
    linarith
  · have h0 : relevanceScore10 "" "" = 0 := by decide
    rw [relevance_as_score10, h0]
    norm_num

/-- Claim C1 witness: a concrete text containing "time series" scores at least
three tenths. -/
theorem claim_C1_witness : (3 : ℚ)/10 ≤ _calculate_relevance "time series" "" :=
  (claim_C1_relevance_formula.2.1 "time series" "").2.2.2 (by decide)

/-- Claim C2: the relevance-scoring code is unreachable.  The class dictionary
has no `_calculate_relevance` entry; the scoring statements sit after the
`return` of the seven-statement front of `_generate_bibtex_key`, so whatever
statements follow that front, execution returns the concatenated key after
exactly seven statements and never reaches them; and each per-candidate body,
resolved against the class dictionary, raises `AttributeError`, which the
per-candidate handler swallows, so every parse produces no records at all. -/
theorem claim_C2_unreachable :
    scraperHasAttr "_calculate_relevance" = false
    ∧ genKeyFront.length = 7
    ∧ (∀ (dead : List (MStep GenKeyState String)) (a : String) (y : Option Int) (t : String),
        runBody (genKeyFront ++ dead) (GenKeyState.init a y t) =
          .returned (_generate_bibtex_key a y t) 7)
    ∧ (∀ e, processArxivEntryActual e = .error .attributeError)
    ∧ (∀ item, processCrossrefItemActual item = .error .attributeError)
    ∧ (∀ doc, processIADocActual doc = .error .attributeError)
    ∧ (∀ entries, _parse_arxiv_response entries = [])
    ∧ (∀ items, _parse_crossref_response items = [])
    ∧ (∀ docs, _parse_internet_archive_response docs = []) := by
  refine ⟨by decide, rfl, fun dead a y t => rfl, fun e => rfl, fun item => rfl, fun doc => rfl,
    ?_, ?_, ?_⟩
  · exact fun entries => List.filterMap_eq_nil_iff.mpr fun e _ => rfl
  · exact fun items => List.filterMap_eq_nil_iff.mpr fun item _ => rfl
  · exact fun docs => List.filterMap_eq_nil_iff.mpr fun doc _ => rfl

/-- The surname component of the citation key as the source computes it. -/
def keySurname (first_author : String) : String :=
  stripNonAlpha ((pySplit first_author).getLastD "Unknown")

/-- The title-word component of the citation key as the source computes it. -/
def keyTitleWord (title : String) : String := (pyFindWords title).headD "Title"

/-- Claim C5 counterexample: the claim makes the surname fall back to
"Unknown" whenever the stripped last token is empty, but the source applies the
fallback before stripping, so an all-digit author token yields an empty
surname: `generateKey("42", 2020, "Advances in Forecasting")` is
"2020Advances", not "Unknown2020Advances". -/
theorem claim_C5_counterexample :
    _generate_bibtex_key "42" (some 2020) "Advances in Forecasting" = "2020Advances"
    ∧ "2020Advances" ≠ "Unknown2020Advances" := ⟨by decide, by decide⟩

/-- Claim C5 as amended: the key is the bare concatenation
surname ++ yearString ++ titleWord where the surname is the last
whitespace-delimited token with non-alphabetic characters stripped,
"Unknown" only when there is no token at all (a token that strips to nothing
gives an empty surname); the title word is the first regex match (a maximal
alphabetic run of length at least three not adjacent to another word
character), or "Title"; the year renders in decimal, with "Unknown" when
absent or zero; and the documented example holds. -/
theorem claim_C5_amended :
    (∀ a y t, _generate_bibtex_key a y t = keySurname a ++ pyYearStr y ++ keyTitleWord t)
    ∧ (∀ a, pySplit a = [] → keySurname a = "Unknown")
    ∧ (∀ a ts tok, pySplit a = ts ++ [tok] → keySurname a = stripNonAlpha tok)
    ∧ pyYearStr none = "Unknown"
    ∧ pyYearStr (some 0) = "Unknown"
    ∧ (∀ y : Int, y ≠ 0 → pyYearStr (some y) = toString y)
    ∧ (∀ t, pyFindWords t = [] → keyTitleWord t = "Title")
    ∧ (∀ t w ws, pyFindWords t = w :: ws → keyTitleWord t = w)
    ∧ _generate_bibtex_key "Jane Doe" (some 2020) "Advances in Forecasting" = "Doe2020Advances"
    ∧ _generate_bibtex_key "Jane Doe" none "Advances in Forecasting" = "DoeUnknownAdvances" := by
  refine ⟨?_, ?_, ?_, rfl, by decide, ?_, ?_, ?_, by decide, by decide⟩
  · intro a y t
    simp only [_generate_bibtex_key, keySurname, keyTitleWord, List.getLastD_eq_getLast?,
      List.headD_eq_head?]
    cases (pySplit a).getLast? <;> cases (pyFindWords t).head? <;> rfl
  · intro a h
    rw [keySurname, h]
    decide
  · intro a ts tok h
    rw [keySurname, h, List.getLastD_concat]
  · intro y hy
    simp [pyYearStr, hy]
  · intro t h
    rw [keyTitleWord, h]
    rfl
  · intro t w ws h
    rw [keyTitleWord, h]
    rfl

/-- Claim C5 witness: the fallback cases of the amended claim at concrete
inputs. -/
theorem claim_C5_witness :
    keySurname "" = "Unknown" ∧ keyTitleWord "a-b" = "Title" ∧
      pyYearStr (some 1987) = "1987" :=
  ⟨claim_C5_amended.2.1 "" (by decide),
   claim_C5_amended.2.2.2.2.2.2.1 "a-b" (by decide),
   claim_C5_amended.2.2.2.2.2.1 1987 (by decide)⟩

/-- Claim C6: whenever the lowercased title-and-abstract text contains a thesis
keyword, the classifier returns Dissertation when the text also contains
"phd", "doctoral" or "doctor" and Thesis otherwise, regardless of source and of
any native type code; in particular the title "PhD Dissertation on ARIMA"
always classifies as Dissertation. -/
theorem claim_C6_thesis_precedence :
    (∀ title abstract source ctype,
      containsAnyKw thesisKeywords (pyLower (title ++ " " ++ abstract)) = true →
        _classify_document_type title abstract source ctype =
          if containsAnyKw doctoralKeywords (pyLower (title ++ " " ++ abstract))
          then "Dissertation" else "Thesis")
    ∧ (∀ abstract source ctype,
        _classify_document_type "PhD Dissertation on ARIMA" abstract source ctype
          = "Dissertation") := by
  constructor
  · intro title abstract source ctype h
    unfold _classify_document_type
    rw [if_pos h]
  · intro abstract source ctype
    have hphd : strContains "phd" (pyLower ("PhD Dissertation on ARIMA" ++ " " ++ abstract))
        = true := by
      rw [pyLower_append]
      exact strContains_append_left _ (by decide)
    have hthesis : containsAnyKw thesisKeywords
        (pyLower ("PhD Dissertation on ARIMA" ++ " " ++ abstract)) = true :=
      List.any_eq_true.mpr ⟨"phd", by decide, hphd⟩
    have hdoc : containsAnyKw doctoralKeywords
        (pyLower ("PhD Dissertation on ARIMA" ++ " " ++ abstract)) = true :=
      List.any_eq_true.mpr ⟨"phd", by decide, hphd⟩
    unfold _classify_document_type
    rw [if_pos hthesis, if_pos hdoc]

/-- Claim C6 witness: a thesis-keyword text without doctoral keywords
classifies as Thesis even with a book-source and a native type code present. -/
theorem claim_C6_witness :
    _classify_document_type "thesis about trends" "" "Internet Archive" "book" = "Thesis" := by
  rw [claim_C6_thesis_precedence.1 "thesis about trends" "" "Internet Archive" "book" (by decide)]
  decide

/-- Claim C8 counterexample: the thesis-type classifier is claimed to be a
function of the degree string alone, but with the same empty degree string the
result changes with the title: a "PhD" title yields Dissertation while the
claim's degree-table assigns Thesis. -/
theorem claim_C8_counterexample :
    _classify_thesis_type "PhD" "" "" = "Dissertation"
    ∧ _classify_thesis_type "" "" "" = "Thesis" := ⟨by decide, by decide⟩

/-- Claim C8 as amended: the classifier inspects the lowercased concatenation
`title ++ " " ++ abstract ++ " " ++ degree_type` (not the degree string alone)
with the claimed keyword groups in the claimed precedence order, and any two
calls whose combined lowercased texts agree return the same result. -/
theorem claim_C8_amended :
    (∀ title abstract degree_type,
      _classify_thesis_type title abstract degree_type =
        (if containsAnyKw ["phd", "doctoral", "doctor", "ph.d"]
              (pyLower (title ++ " " ++ abstract ++ " " ++ degree_type)) then "Dissertation"
         else if containsAnyKw ["master", "ms", "m.s", "ma", "m.a"]
              (pyLower (title ++ " " ++ abstract ++ " " ++ degree_type)) then "Thesis"
         else if containsAnyKw ["bachelor", "bs", "b.s", "ba", "b.a"]
              (pyLower (title ++ " " ++ abstract ++ " " ++ degree_type)) then "Undergraduate Thesis"
         else "Thesis"))
    ∧ (∀ t1 a1 d1 t2 a2 d2,
        pyLower (t1 ++ " " ++ a1 ++ " " ++ d1) = pyLower (t2 ++ " " ++ a2 ++ " " ++ d2) →
        _classify_thesis_type t1 a1 d1 = _classify_thesis_type t2 a2 d2) := by
  constructor
  · intro title abstract degree_type
    rfl
  · intro t1 a1 d1 t2 a2 d2 h
    unfold _classify_thesis_type
    rw [h]

/-- Claim C8 witness: two calls with different argument splits but the same
combined text agree. -/
theorem claim_C8_witness :
    _classify_thesis_type "a" "b c" "d" = _classify_thesis_type "a b" "c" "d" :=
  claim_C8_amended.2 "a" "b c" "d" "a b" "c" "d" (by decide)

/-- The document types the Zotero table maps. -/
def zoteroMappedKeys : List String :=
  ["Research Article", "Book", "Book Chapter", "Conference Paper", "Thesis",
   "Dissertation", "Preprint", "Technical Report"]

/-- Claim C9: the Zotero export assigns each row the Item Type given by the
fixed table (Dissertation in particular maps to thesis), and any document type
outside the table maps to journalArticle. -/
theorem claim_C9_zotero_item_type :
    (∀ rows, (export_to_zotero_csv rows).map ZoteroEntry.itemType
       = rows.map fun r => (zoteroTypeMapping.lookup r.document_type).getD "journalArticle")
    ∧ zoteroTypeMapping.lookup "Research Article" = some "journalArticle"
    ∧ zoteroTypeMapping.lookup "Book" = some "book"
    ∧ zoteroTypeMapping.lookup "Book Chapter" = some "bookSection"
    ∧ zoteroTypeMapping.lookup "Conference Paper" = some "conferencePaper"
    ∧ zoteroTypeMapping.lookup "Thesis" = some "thesis"
    ∧ zoteroTypeMapping.lookup "Dissertation" = some "thesis"
    ∧ zoteroTypeMapping.lookup "Preprint" = some "preprint"
    ∧ zoteroTypeMapping.lookup "Technical Report" = some "report"
    ∧ (∀ r : Row, r.document_type ∉ zoteroMappedKeys →
        (zoteroRow r).itemType = "journalArticle") := by
  refine ⟨?_, by decide, by decide, by decide, by decide, by decide, by decide, by decide,
    by decide, ?_⟩
  · intro rows
    rw [export_to_zotero_csv, List.map_map]
    rfl
  · intro r h
    simp only [zoteroMappedKeys, List.mem_cons, List.not_mem_nil, or_false, not_or] at h
    obtain ⟨n1, n2, n3, n4, n5, n6, n7, n8⟩ := h
    have b1 := beq_eq_false_iff_ne.mpr n1
    have b2 := beq_eq_false_iff_ne.mpr n2
    have b3 := beq_eq_false_iff_ne.mpr n3
    have b4 := beq_eq_false_iff_ne.mpr n4
    have b5 := beq_eq_false_iff_ne.mpr n5
    have b6 := beq_eq_false_iff_ne.mpr n6
    have b7 := beq_eq_false_iff_ne.mpr n7
    have b8 := beq_eq_false_iff_ne.mpr n8
    simp [zoteroRow, zoteroTypeMapping, List.lookup, b1, b2, b3, b4, b5, b6, b7, b8]

/-- Claim C9 witness: a row with an unmapped document type gets journalArticle. -/
theorem claim_C9_witness :
    (zoteroRow { document_type := "Mystery" }).itemType = "journalArticle" :=
  claim_C9_zotero_item_type.2.2.2.2.2.2.2.2.2 { document_type := "Mystery" } (by decide)

/-- Claim C4: a CrossRef item with an empty license list never becomes a
record, whatever its relevance; and every assembled CrossRef record came from
an item with a non-empty license list, relevance above one tenth, and a
non-placeholder title. -/
theorem claim_C4_crossref_gate : ∀ item : CRItem,
    (item.license = [] → processCrossrefItem item = none)
    ∧ (∀ b, processCrossrefItem item = some b →
        item.license ≠ []
          ∧ _calculate_relevance (crTitle item) item.abstract > 1/10
          ∧ crTitle item ≠ "No title") := by
  intro item
  constructor
  · intro hlic
    have hfalse : ¬(item.license.length > 0
        ∧ _calculate_relevance (crTitle item) item.abstract > 1/10
        ∧ crTitle item ≠ "No title") := by
      rintro ⟨h1, -, -⟩
      rw [hlic] at h1
      simp at h1
    rcases h : crDateParts item with e | dp
    · simp only [processCrossrefItem, h]
    · simp only [processCrossrefItem, h, if_neg hfalse]
  · intro b hb
    rcases h : crDateParts item with e | dp
    · simp only [processCrossrefItem, h] at hb
      exact absurd hb (by simp)
    · simp only [processCrossrefItem, h] at hb
      by_cases hgate : item.license.length > 0
          ∧ _calculate_relevance (crTitle item) item.abstract > 1/10
          ∧ crTitle item ≠ "No title"
      · refine ⟨?_, hgate.2.1, hgate.2.2⟩
        intro hl
        have h1 := hgate.1
        rw [hl] at h1
        simp at h1
      · rw [if_neg hgate] at hb
        exact absurd hb (by simp)

/-- Claim C4 witness: a concrete licenseless item with a highly relevant title
is rejected. -/
theorem claim_C4_witness :
    processCrossrefItem { title := ["Time Series Econometrics"] } = none :=
  (claim_C4_crossref_gate { title := ["Time Series Econometrics"] }).1 rfl

/-- Claim C10: every record assembled from CrossRef has license type
"Open Access"; the "Licensed" branch of the mapping can never be taken because
the acceptance gate already required a non-empty license list. -/
theorem claim_C10_open_access : ∀ items : List CRItem,
    (parseCrossrefItems items).all (fun b => b.license_type == "Open Access") = true := by
  intro items
  rw [List.all_eq_true]
  intro b hb
  obtain ⟨item, -, hib⟩ := List.mem_filterMap.mp hb
  rcases h : crDateParts item with e | dp
  · simp only [processCrossrefItem, h] at hib
    exact absurd hib (by simp)
  · simp only [processCrossrefItem, h] at hib
    by_cases hgate : item.license.length > 0
        ∧ _calculate_relevance (crTitle item) item.abstract > 1/10
        ∧ crTitle item ≠ "No title"
    · have hlic : item.license ≠ [] := by
        intro hl
        have h1 := hgate.1
        rw [hl] at h1
        simp at h1
      rw [if_pos hgate] at hib
      injection hib with hb2
      rw [← hb2]
      simp [hlic]
    · rw [if_neg hgate] at hib
      exact absurd hib (by simp)

/-- An Internet Archive document with an empty title but a relevant
description. -/
def iaDocEmptyTitle : IADoc :=
  { title := "", description := .s "time series forecasting arima" }

/-- The empty-titled relevant document is assembled with an empty title. -/
theorem ia_empty_title_assembled :
    (parseIADocs [iaDocEmptyTitle]).map Book.title = [""] := by
  have hrel : _calculate_relevance "" "time series forecasting arima" > 3/10 := by
    rw [relevance_gt_threeTenths]
    decide
  simp [parseIADocs, processIADoc, iaDocEmptyTitle, iaYearOf, iaDescription, hrel]

/-- Claim C3 counterexample: the Internet Archive acceptance gate checks only
the relevance score, so a document with an empty title and a relevant
description is assembled into a record whose title is empty. -/
theorem claim_C3_counterexample :
    (parseIADocs [iaDocEmptyTitle]).map Book.title = [""] :=
  ia_empty_title_assembled

/-- Claim C3 as amended: arXiv records always carry a non-empty,
non-placeholder title and CrossRef records a non-placeholder title (their
gates test the title), but the Internet Archive gate has no title condition
and assembles an empty-titled record from an empty-titled document whose
description is relevant enough. -/
theorem claim_C3_amended :
    (∀ entries, (parseArxivEntries entries).all
        (fun b => !(b.title == "") && !(b.title == "No title")) = true)
    ∧ (∀ items, (parseCrossrefItems items).all (fun b => !(b.title == "No title")) = true)
    ∧ (parseIADocs [iaDocEmptyTitle]).map Book.title = [""] := by
  refine ⟨?_, ?_, ia_empty_title_assembled⟩
  · intro entries
    rw [List.all_eq_true]
    intro b hb
    obtain ⟨e, -, heb⟩ := List.mem_filterMap.mp hb
    simp only [processArxivEntry] at heb
    split_ifs at heb with hgate
    · injection heb with h2
      rw [← h2]
      simp only [Bool.and_eq_true, Bool.not_eq_true', beq_eq_false_iff_ne]
      exact ⟨hgate.1, hgate.2.1⟩
  · intro items
    rw [List.all_eq_true]
    intro b hb
    obtain ⟨item, -, hib⟩ := List.mem_filterMap.mp hb
    rcases h : crDateParts item with e | dp
    · simp only [processCrossrefItem, h] at hib
      exact absurd hib (by simp)
    · simp only [processCrossrefItem, h] at hib
      by_cases hgate : item.license.length > 0
          ∧ _calculate_relevance (crTitle item) item.abstract > 1/10
          ∧ crTitle item ≠ "No title"
      · rw [if_pos hgate] at hib
        injection hib with hb2
        rw [← hb2]
        simp only [Bool.not_eq_true', beq_eq_false_iff_ne]
        exact hgate.2.2
      · rw [if_neg hgate] at hib
        exact absurd hib (by simp)

/-- A row with no year, an empty url, and two authors. -/
def rowNoYear : Row :=
  { title := "Alpha", authors := "X, Y", document_type := "Research Article", abstract := "a" }

/-- A row with a year, a url and a doi. -/
def rowWithYear : Row :=
  { title := "Beta", authors := "Z", year := some 2001, url := "http://e.x",
    doi := "10.1/z", document_type := "Book", abstract := "b" }

/-- Claim C7 counterexample: in the RIS output of two records the entries are
separated by a single newline with no blank separator line anywhere (the
intended trailing blank element is removed by the empty-string filter), and an
empty-valued `UR` line is emitted rather than omitted. -/
theorem claim_C7_counterexample :
    strLines (export_to_endnote [rowNoYear, rowWithYear]) =
      ["TY  - JOUR", "TI  - Alpha", "UR  - ", "AB  - a", "AU  - X", "AU  - Y", "ER  - ",
       "TY  - BOOK", "TI  - Beta", "PY  - 2001", "UR  - http://e.x", "AB  - b", "AU  - Z",
       "DO  - 10.1/z", "ER  - "]
    ∧ (strLines (export_to_endnote [rowNoYear, rowWithYear])).count "" = 0
    ∧ (strLines (export_to_endnote [rowNoYear, rowWithYear])).count "ER  - " = 2
    ∧ "UR  - " ∈ strLines (export_to_endnote [rowNoYear, rowWithYear]) :=
  ⟨by decide, by decide, by decide, by decide⟩

/-- Claim C7 as amended: per entry, a `PY` line appears exactly when the year
is present; no empty line survives the filter; the `UR` and `AB` lines are
always emitted, even when their value is empty; every entry ends with the
`ER  - ` terminator; and the whole output joins all surviving lines of all
entries with single newlines, so there is no blank separator line between
entries. -/
theorem claim_C7_amended :
    (∀ r : Row, "" ∉ risLines r)
    ∧ (∀ (r : Row) (y : Int), r.year = some y → ("PY  - " ++ toString y) ∈ risLines r)
    ∧ (∀ (r : Row) (s : String), ("PY  - " ++ s) ∈ risLines r → r.year ≠ none)
    ∧ (∀ r : Row, ("UR  - " ++ r.url) ∈ risLines r)
    ∧ (∀ r : Row, ("AB  - " ++ r.abstract) ∈ risLines r)
    ∧ (∀ r : Row, (risLines r).getLast? = some "ER  - ")
    ∧ (∀ rows : List Row,
        export_to_endnote rows = pyJoin "\n" (rows.map risLines).flatten) := by
  refine ⟨?_, ?_, ?_, ?_, ?_, risLines_getLast, ?_⟩
  · intro r h
    simp [risLines, List.mem_filter] at h
  · intro r y hy
    refine List.mem_filter.mpr ⟨?_, decide_eq_true (tag_ne_empty "PY  - " (toString y) 'P' _ rfl)⟩
    simp [risEntryAll, hy]
  · intro r s h hnone
    have hmem := (List.mem_filter.mp h).1
    have heq := py_slot_unique r _ hmem (take2_tag _ _ 'P' 'Y' _ rfl)
    rw [hnone] at heq
    exact tag_ne_empty "PY  - " s 'P' _ rfl heq
  · intro r
    refine List.mem_filter.mpr ⟨?_, decide_eq_true (tag_ne_empty "UR  - " r.url 'U' _ rfl)⟩
    simp [risEntryAll]
  · intro r
    refine List.mem_filter.mpr ⟨?_, decide_eq_true (tag_ne_empty "AB  - " r.abstract 'A' _ rfl)⟩
    simp [risEntryAll]
  · intro rows
    rw [export_to_endnote]
    have hm : rows.map (fun r => pyJoin "\n" (risLines r))
        = (rows.map risLines).map (pyJoin "\n") := by
      rw [List.map_map]
      rfl
    rw [hm, pyJoin_groups]
    intro g hg
    obtain ⟨r, -, rfl⟩ := List.mem_map.mp hg
    exact risLines_ne_nil r

/-- Claim C7 witness: a present year contributes its `PY` line, and a row with
an absent year cannot have contributed any. -/
theorem claim_C7_witness :
    ("PY  - " ++ toString (1999 : Int)) ∈
      risLines { title := "T", year := some (1999 : Int) } :=
  claim_C7_amended.2.1 { title := "T", year := some (1999 : Int) } 1999 rfl
